import Mathlib

/-!
Shallow embedding of the IMNCI classification module
(src/src/components/patient/PatientImageUpload.tsx, second document:
"IMNCI Classification Logic and Referral Prediction").

Numeric fields of the observation records are JavaScript numbers; they are
modelled as rationals.  Optional numeric fields are modelled as Option of ℚ.
Two JavaScript idioms of the source are modelled explicitly:
  - the default idiom  x || 0  yields 0 both when x is undefined and when
    x is 0, which coincides with Option.getD 0;
  - the truthiness idiom  x && p x  is false when x is undefined or 0,
    so a supplied measurement of exactly 0 behaves as if absent.
-/

inductive ClassificationColor where
  | green
  | yellow
  | pink
  | red
deriving DecidableEq, Repr

inductive Urgency where
  | routine
  | urgent
  | emergency
deriving DecidableEq, Repr

structure ClassificationResult where
  classification : String
  color : ClassificationColor
  requiresReferral : Bool
  urgency : Option Urgency := none
  treatment : Option String := none
deriving DecidableEq, Repr

structure DangerSignsData where
  notAbleToDrink : Bool
  vomitsEverything : Bool
  hasConvulsions : Bool
  lethargicUnconscious : Bool
  convulsingNow : Bool
deriving DecidableEq, Repr

def assessDangerSigns (data : DangerSignsData) : ClassificationResult :=
  let hasDangerSign :=
    data.notAbleToDrink ||
    data.vomitsEverything ||
    data.hasConvulsions ||
    data.lethargicUnconscious ||
    data.convulsingNow
  if hasDangerSign then
    { classification := "General Danger Signs Present"
      color := ClassificationColor.red
      requiresReferral := true
      urgency := some Urgency.emergency
      treatment := some "Give first dose of appropriate antibiotic. Refer URGENTLY to hospital." }
  else
    { classification := "No General Danger Signs"
      color := ClassificationColor.green
      requiresReferral := false }

structure CoughBreathingData where
  hasCoughDifficultyBreathing : Bool
  coughDurationDays : Option ℚ := none
  breathsPerMinute : Option ℚ := none
  ageInMonths : ℚ
  chestIndrawing : Bool
  stridor : Bool
  hasDangerSigns : Bool
deriving DecidableEq, Repr

def assessCoughBreathing (data : CoughBreathingData) : ClassificationResult :=
  if !data.hasCoughDifficultyBreathing then
    { classification := "No Cough or Breathing Problem"
      color := ClassificationColor.green
      requiresReferral := false }
  else
    -- Determine fast breathing threshold based on age
    let fastBreathingThreshold : ℚ :=
      if data.ageInMonths < 2 then 60 else if data.ageInMonths < 12 then 50 else 40
    let hasFastBreathing := decide (data.breathsPerMinute.getD 0 ≥ fastBreathingThreshold)
    -- Severe Pneumonia or Very Severe Disease
    if data.hasDangerSigns || data.stridor || data.chestIndrawing then
      { classification := "Severe Pneumonia or Very Severe Disease"
        color := ClassificationColor.red
        requiresReferral := true
        urgency := some Urgency.emergency
        treatment := some "Give first dose of antibiotic. Give first dose of paracetamol for high fever. Refer URGENTLY to hospital." }
    -- Pneumonia
    else if hasFastBreathing then
      { classification := "Pneumonia"
        color := ClassificationColor.yellow
        requiresReferral := false
        treatment := some "Give oral antibiotic for 5 days. Soothe the throat with safe remedy. If wheezing, give bronchodilator for 5 days. Follow up in 2 days." }
    -- No Pneumonia: Cough or Cold
    else
      { classification := "No Pneumonia: Cough or Cold"
        color := ClassificationColor.green
        requiresReferral := false
        treatment := some "If coughing more than 14 days, refer for assessment. Soothe the throat with safe remedy. Follow up in 5 days if not improving." }

structure DiarrheaData where
  hasDiarrhea : Bool
  diarrheaDurationDays : Option ℚ := none
  bloodInStool : Bool
  sunkenEyes : Bool
  skinPinchSlow : Bool
  skinPinchVerySlow : Bool
  restlessIrritable : Bool
  drinksEagerly : Bool
  notAbleToDrink : Bool
  lethargicUnconscious : Bool
deriving DecidableEq, Repr

def assessDiarrhea (data : DiarrheaData) : ClassificationResult :=
  if !data.hasDiarrhea then
    { classification := "No Diarrhea"
      color := ClassificationColor.green
      requiresReferral := false }
  -- Severe Dehydration
  else if (data.lethargicUnconscious || data.notAbleToDrink) ||
      (data.sunkenEyes && data.skinPinchVerySlow) then
    { classification := "Severe Dehydration"
      color := ClassificationColor.red
      requiresReferral := true
      urgency := some Urgency.emergency
      treatment := some "If child has no other severe classification: Give fluid for severe dehydration (Plan C). If child also has another severe classification: Refer URGENTLY with mother giving frequent sips of ORS. Advise to continue breastfeeding." }
  -- Some Dehydration
  else if data.restlessIrritable || data.sunkenEyes || data.drinksEagerly || data.skinPinchSlow then
    { classification := "Some Dehydration"
      color := ClassificationColor.yellow
      requiresReferral := false
      treatment := some "Give fluid and food for some dehydration (Plan B). If child also has a severe classification, refer URGENTLY with mother giving frequent sips of ORS on the way. Advise to continue breastfeeding." }
  -- Dysentery
  else if data.bloodInStool then
    { classification := "Dysentery"
      color := ClassificationColor.yellow
      requiresReferral := false
      treatment := some "Give ciprofloxacin for 3 days. Follow up in 2 days." }
  -- Persistent Diarrhea
  else if data.diarrheaDurationDays.getD 0 ≥ 14 then
    { classification := "Persistent Diarrhea"
      color := ClassificationColor.yellow
      requiresReferral := true
      urgency := some Urgency.routine
      treatment := some "Refer for assessment and treatment." }
  -- No Dehydration
  else
    { classification := "No Dehydration"
      color := ClassificationColor.green
      requiresReferral := false
      treatment := some "Give fluid and food to treat diarrhea at home (Plan A). Give zinc supplements for 10-14 days. Advise mother when to return immediately. Follow up in 5 days if not improving." }

structure FeverData where
  hasFever : Bool
  feverDurationDays : Option ℚ := none
  temperature : Option ℚ := none
  stiffNeck : Bool
  malariaRdtResult : Option String := none
  generalizedRash : Bool
  runnyNose : Bool
  mouthUlcers : Bool
  pusDrainingEye : Bool
  cloudingCornea : Bool
  hasDangerSigns : Bool
deriving DecidableEq, Repr

def assessFever (data : FeverData) : ClassificationResult :=
  if !data.hasFever then
    { classification := "No Fever"
      color := ClassificationColor.green
      requiresReferral := false }
  -- Very Severe Febrile Disease / Severe Malaria
  else if data.hasDangerSigns || data.stiffNeck then
    { classification := "Very Severe Febrile Disease"
      color := ClassificationColor.red
      requiresReferral := true
      urgency := some Urgency.emergency
      treatment := some "Give first dose of artesunate or quinine for severe malaria. Give first dose of antibiotic for severe bacterial infection. Treat to prevent low blood sugar. Give first dose of paracetamol. Refer URGENTLY." }
  -- Check for measles complications
  else if data.generalizedRash && data.runnyNose then
    if data.cloudingCornea || data.mouthUlcers || data.pusDrainingEye then
      { classification := "Severe Complicated Measles"
        color := ClassificationColor.red
        requiresReferral := true
        urgency := some Urgency.emergency
        treatment := some "Give vitamin A. Give first dose of antibiotic. If clouding of cornea, apply tetracycline eye ointment. Refer URGENTLY." }
    else
      { classification := "Measles with Eye or Mouth Complications"
        color := ClassificationColor.yellow
        requiresReferral := false
        treatment := some "Give vitamin A. If pus draining from eye, apply tetracycline eye ointment. If mouth ulcers, apply gentian violet." }
  -- Malaria
  else if data.malariaRdtResult = some "positive" then
    { classification := "Malaria"
      color := ClassificationColor.yellow
      requiresReferral := false
      treatment := some "Give oral antimalarial (ACT) for 3 days. Give paracetamol for fever. Follow up in 2 days if fever persists." }
  -- Fever - Malaria Unlikely or No Malaria
  else
    { classification :=
        if data.malariaRdtResult = some "negative" then "Fever - No Malaria" else "Fever - Cause Unknown"
      color := ClassificationColor.green
      requiresReferral := decide (data.feverDurationDays.getD 0 ≥ 7)
      urgency := some Urgency.routine
      treatment := some "Give paracetamol for fever. Follow up in 2 days if fever persists. If fever for 7 days or more, refer for assessment." }

structure EarProblemData where
  hasEarProblem : Bool
  earPain : Bool
  earDischarge : Bool
  earDischargeDurationDays : Option ℚ := none
  tenderSwellingBehindEar : Bool
deriving DecidableEq, Repr

def assessEarProblem (data : EarProblemData) : ClassificationResult :=
  if !data.hasEarProblem then
    { classification := "No Ear Problem"
      color := ClassificationColor.green
      requiresReferral := false }
  -- Mastoiditis
  else if data.tenderSwellingBehindEar then
    { classification := "Mastoiditis"
      color := ClassificationColor.red
      requiresReferral := true
      urgency := some Urgency.urgent
      treatment := some "Give first dose of antibiotic. Give first dose of paracetamol for pain. Refer URGENTLY." }
  -- Chronic Ear Infection
  else if data.earDischargeDurationDays.getD 0 ≥ 14 then
    { classification := "Chronic Ear Infection"
      color := ClassificationColor.yellow
      requiresReferral := true
      urgency := some Urgency.routine
      treatment := some "Dry the ear by wicking. Refer for specialist assessment." }
  -- Acute Ear Infection
  else if data.earDischarge || data.earPain then
    { classification := "Acute Ear Infection"
      color := ClassificationColor.yellow
      requiresReferral := false
      treatment := some "Give antibiotic for 5 days. Give paracetamol for pain. Dry the ear by wicking. Follow up in 5 days." }
  else
    { classification := "No Ear Infection"
      color := ClassificationColor.green
      requiresReferral := false }

structure NutritionData where
  visibleSevereWasting : Bool
  edemaBothFeet : Bool
  weightForAge : Option ℚ := none
  muacMeasurement : Option ℚ := none
  palmarPallor : Bool
  severePalmarPallor : Bool
deriving DecidableEq, Repr

/-- The JavaScript guard  x && p(x)  on an optional number: false when the
field is absent and also when it is exactly 0, since 0 is falsy. -/
def truthyAnd (x : Option ℚ) (p : ℚ → Bool) : Bool :=
  match x with
  | some v => decide (v ≠ 0) && p v
  | none => false

def assessNutrition (data : NutritionData) : ClassificationResult :=
  -- Severe Acute Malnutrition.  The source guards each numeric test with the
  -- JS truthiness of the field itself, so a value of 0 behaves as absent.
  if data.visibleSevereWasting || data.edemaBothFeet ||
      truthyAnd data.muacMeasurement (fun m => decide (m < 11.5)) ||
      truthyAnd data.weightForAge (fun w => decide (w < -3)) then
    { classification := "Severe Acute Malnutrition"
      color := ClassificationColor.red
      requiresReferral := true
      urgency := some Urgency.urgent
      treatment := some "Give vitamin A. Treat the child to prevent low blood sugar. Keep child warm. Refer URGENTLY." }
  -- Severe Anemia
  else if data.severePalmarPallor then
    { classification := "Severe Anemia"
      color := ClassificationColor.red
      requiresReferral := true
      urgency := some Urgency.urgent
      treatment := some "Refer URGENTLY." }
  -- Moderate Acute Malnutrition
  else if truthyAnd data.muacMeasurement (fun m => decide (m ≥ 11.5) && decide (m < 12.5)) ||
      truthyAnd data.weightForAge (fun w => decide (w ≥ -3) && decide (w < -2)) then
    { classification := "Moderate Acute Malnutrition"
      color := ClassificationColor.yellow
      requiresReferral := false
      treatment := some "Assess feeding and give counseling. Give supplementary feeding. Give vitamin A every 6 months. Follow up in 14 days." }
  -- Anemia
  else if data.palmarPallor then
    { classification := "Anemia"
      color := ClassificationColor.yellow
      requiresReferral := false
      treatment := some "Give iron and folic acid. Give mebendazole if child is 1 year or older. Follow up in 14 days." }
  -- No Malnutrition or Anemia
  else
    { classification := "No Malnutrition or Anemia"
      color := ClassificationColor.green
      requiresReferral := false
      treatment := some "Counsel on feeding. Give vitamin A every 6 months." }

structure OverallAssessment where
  overallClassification : String
  overallColor : ClassificationColor
  requiresReferral : Bool
  referralUrgency : String
  criticalFindings : List String
deriving DecidableEq, Repr

def priorityOrder : List ClassificationColor :=
  [ClassificationColor.green, ClassificationColor.yellow, ClassificationColor.pink,
   ClassificationColor.red]

/-- The mutable accumulators of the forEach loop in calculateOverallAssessment. -/
structure AggState where
  criticalFindings : List String
  highestPriority : ClassificationColor
  referralUrgency : String
  requiresReferral : Bool
deriving DecidableEq, Repr

/-- One iteration of the forEach loop body in calculateOverallAssessment.
The loop body updates each of the four accumulators from its own previous
value only, so the body is recorded here per accumulator: the referral
branch sets the flag and pushes the label, the color branch keeps the
maximum by priority index, and the urgency chain upgrades the urgency. -/
def aggStep (s : AggState) (c : ClassificationResult) : AggState :=
  { requiresReferral :=
      if c.requiresReferral then true else s.requiresReferral
    criticalFindings :=
      if c.requiresReferral then s.criticalFindings ++ [c.classification]
      else s.criticalFindings
    highestPriority :=
      if priorityOrder.indexOf c.color > priorityOrder.indexOf s.highestPriority then
        c.color
      else s.highestPriority
    referralUrgency :=
      if c.urgency = some Urgency.emergency then "emergency"
      else if c.urgency = some Urgency.urgent ∧ s.referralUrgency ≠ "emergency" then
        "urgent"
      else if c.urgency = some Urgency.routine ∧ s.referralUrgency = "none" then
        "routine"
      else s.referralUrgency }

/-- The initial accumulator values of calculateOverallAssessment. -/
def aggInit : AggState :=
  { criticalFindings := [], highestPriority := ClassificationColor.green,
    referralUrgency := "none", requiresReferral := false }

def calculateOverallAssessment (classifications : List ClassificationResult) :
    OverallAssessment :=
  let s := classifications.foldl aggStep
    { criticalFindings := [], highestPriority := ClassificationColor.green,
      referralUrgency := "none", requiresReferral := false }
  let colorPriority := priorityOrder.indexOf s.highestPriority
  let redPriority := priorityOrder.indexOf ClassificationColor.red
  let yellowPriority := priorityOrder.indexOf ClassificationColor.yellow
  let overallClassification :=
    if colorPriority ≥ redPriority then
      "REFER URGENTLY - Severe Classification"
    else if colorPriority ≥ yellowPriority ∧ s.requiresReferral = true then
      "REFER - Treatment Required at Higher Facility"
    else if colorPriority ≥ yellowPriority then
      "Treatment at PHU - Follow up required"
    else
      "Child can be treated at home"
  { overallClassification := overallClassification
    overallColor := s.highestPriority
    requiresReferral := s.requiresReferral
    referralUrgency := if s.requiresReferral then s.referralUrgency else "none"
    criticalFindings := s.criticalFindings }

structure ColorDisplay where
  bgClass : String
  textClass : String
  borderClass : String
  label : String
deriving DecidableEq, Repr

def getColorDisplay (color : ClassificationColor) : ColorDisplay :=
  match color with
  | ClassificationColor.red =>
      { bgClass := "bg-red-100 dark:bg-red-900/30"
        textClass := "text-red-700 dark:text-red-400"
        borderClass := "border-red-300 dark:border-red-700"
        label := "Urgent Referral" }
  | ClassificationColor.pink =>
      { bgClass := "bg-pink-100 dark:bg-pink-900/30"
        textClass := "text-pink-700 dark:text-pink-400"
        borderClass := "border-pink-300 dark:border-pink-700"
        label := "Referral Needed" }
  | ClassificationColor.yellow =>
      { bgClass := "bg-yellow-100 dark:bg-yellow-900/30"
        textClass := "text-yellow-700 dark:text-yellow-400"
        borderClass := "border-yellow-300 dark:border-yellow-700"
        label := "Treatment Required" }
  | ClassificationColor.green =>
      { bgClass := "bg-green-100 dark:bg-green-900/30"
        textClass := "text-green-700 dark:text-green-400"
        borderClass := "border-green-300 dark:border-green-700"
        label := "Home Care" }

/-! ### Specification-side helpers

Numeric encodings of the two severity orders used by the specification:
green < yellow < pink < red for colors, and none < routine < urgent <
emergency for urgencies, together with the maximum of a list of naturals. -/

def colorVal : ClassificationColor → Nat
  | ClassificationColor.green => 0
  | ClassificationColor.yellow => 1
  | ClassificationColor.pink => 2
  | ClassificationColor.red => 3

def urgVal : Option Urgency → Nat
  | none => 0
  | some Urgency.routine => 1
  | some Urgency.urgent => 2
  | some Urgency.emergency => 3

def urgStr : Nat → String
  | 0 => "none"
  | 1 => "routine"
  | 2 => "urgent"
  | _ => "emergency"

def listMax (l : List Nat) : Nat := l.foldl Nat.max 0

/-- The age-banded fast-breathing threshold of the cough classifier,
as the specification states it. -/
def fastBreathingThresholdFor (age : ℚ) : ℚ :=
  if age < 2 then 60 else if age < 12 then 50 else 40

/-- A classifier output is well formed when a non-referral result carries at
most routine urgency and a referral-requiring result carries some urgency. -/
def resultWellFormed (c : ClassificationResult) : Prop :=
  (c.requiresReferral = false → urgVal c.urgency ≤ 1) ∧
  (c.requiresReferral = true → c.urgency ≠ none)

instance (c : ClassificationResult) : Decidable (resultWellFormed c) :=
  inferInstanceAs (Decidable
    ((c.requiresReferral = false → urgVal c.urgency ≤ 1) ∧
     (c.requiresReferral = true → c.urgency ≠ none)))

/-- A classifier output uses only the green, yellow and red tiers. -/
def colorGYR (r : ClassificationResult) : Prop :=
  r.color = ClassificationColor.green ∨ r.color = ClassificationColor.yellow ∨
  r.color = ClassificationColor.red

/-- A red result demands referral with at least urgent urgency, and a
referral-requiring result always carries an urgency. -/
def refUrgencyInvariant (r : ClassificationResult) : Prop :=
  (r.color = ClassificationColor.red →
    r.requiresReferral = true ∧
      (r.urgency = some Urgency.urgent ∨ r.urgency = some Urgency.emergency)) ∧
  (r.requiresReferral = true → r.urgency ≠ none)

/-! ### Concrete observation records used in witnesses and counterexamples -/

def dangerNone : DangerSignsData :=
  { notAbleToDrink := false, vomitsEverything := false, hasConvulsions := false,
    lethargicUnconscious := false, convulsingNow := false }

def dangerLethargic : DangerSignsData :=
  { dangerNone with lethargicUnconscious := true }

def coughAbsent : CoughBreathingData :=
  { hasCoughDifficultyBreathing := false, ageInMonths := 10,
    chestIndrawing := false, stridor := false, hasDangerSigns := false }

def coughOnly : CoughBreathingData :=
  { coughAbsent with hasCoughDifficultyBreathing := true }

def coughFast : CoughBreathingData :=
  { coughOnly with breathsPerMinute := some 55 }

def coughSlow : CoughBreathingData :=
  { coughOnly with breathsPerMinute := some 45 }

def diarrheaAbsent : DiarrheaData :=
  { hasDiarrhea := false, bloodInStool := false, sunkenEyes := false,
    skinPinchSlow := false, skinPinchVerySlow := false, restlessIrritable := false,
    drinksEagerly := false, notAbleToDrink := false, lethargicUnconscious := false }

def diarrheaLethargicBlood : DiarrheaData :=
  { diarrheaAbsent with
    hasDiarrhea := true
    lethargicUnconscious := true
    bloodInStool := true }

def feverAbsent : FeverData :=
  { hasFever := false, stiffNeck := false, generalizedRash := false,
    runnyNose := false, mouthUlcers := false, pusDrainingEye := false,
    cloudingCornea := false, hasDangerSigns := false }

def feverWeekUnknown : FeverData :=
  { feverAbsent with hasFever := true, feverDurationDays := some 7 }

def earAbsent : EarProblemData :=
  { hasEarProblem := false, earPain := false, earDischarge := false,
    tenderSwellingBehindEar := false }

def nutritionClear : NutritionData :=
  { visibleSevereWasting := false, edemaBothFeet := false,
    palmarPallor := false, severePalmarPallor := false }

def nutritionMuacZero : NutritionData :=
  { nutritionClear with muacMeasurement := some 0 }

def nutritionMuacEleven : NutritionData :=
  { nutritionClear with muacMeasurement := some 11 }

/-- The six domain results of the scenario of claim C9: every domain clear
except a week-long fever of unknown cause, in encounter order. -/
def weekFeverResults : List ClassificationResult :=
  [assessDangerSigns dangerNone,
   assessCoughBreathing coughAbsent,
   assessDiarrhea diarrheaAbsent,
   assessFever feverWeekUnknown,
   assessEarProblem earAbsent,
   assessNutrition nutritionClear]

/-- Two artificial results showing that the urgency of a result that does not
require referral still feeds the aggregated urgency. -/
def mixedUrgencyResults : List ClassificationResult :=
  [⟨"A", ClassificationColor.red, true, some Urgency.routine, none⟩,
   ⟨"B", ClassificationColor.green, false, some Urgency.emergency, none⟩]

/-- A red referral-requiring result next to a green one, for the aggregator
witnesses. -/
def redGreenResults : List ClassificationResult :=
  [⟨"General Danger Signs Present", ClassificationColor.red, true,
    some Urgency.emergency, none⟩,
   ⟨"No Ear Problem", ClassificationColor.green, false, none, none⟩]

/-! ### Basic lemmas about the severity encodings and the aggregation step -/

theorem indexOf_eq_colorVal (c : ClassificationColor) :
    priorityOrder.indexOf c = colorVal c := by
  cases c <;> rfl

theorem urgVal_le_three (u : Option Urgency) : urgVal u ≤ 3 := by
  rcases u with _ | u
  · exact Nat.zero_le 3
  · cases u <;> simp [urgVal]

theorem one_le_urgVal (u : Option Urgency) (h : u ≠ none) : 1 ≤ urgVal u := by
  rcases u with _ | u
  · exact absurd rfl h
  · cases u <;> simp [urgVal]


theorem natMax_zero_left (x : Nat) : Nat.max 0 x = x := by
  unfold Nat.max
  simp

theorem natMax_le_iff (a b c : Nat) : Nat.max a b ≤ c ↔ a ≤ c ∧ b ≤ c := by
  unfold Nat.max
  exact sup_le_iff

theorem left_le_natMax (a b : Nat) : a ≤ Nat.max a b := by
  unfold Nat.max
  exact le_sup_left

theorem right_le_natMax (a b : Nat) : b ≤ Nat.max a b := by
  unfold Nat.max
  exact le_sup_right

theorem natMax_assoc (a b c : Nat) : Nat.max (Nat.max a b) c = Nat.max a (Nat.max b c) := by
  unfold Nat.max
  exact sup_assoc a b c

theorem aggStep_requiresReferral (s : AggState) (c : ClassificationResult) :
    (aggStep s c).requiresReferral = (s.requiresReferral || c.requiresReferral) := by
  cases hc : c.requiresReferral <;> simp [aggStep, hc]

theorem aggStep_criticalFindings (s : AggState) (c : ClassificationResult) :
    (aggStep s c).criticalFindings =
      s.criticalFindings ++ (if c.requiresReferral then [c.classification] else []) := by
  cases hc : c.requiresReferral <;> simp [aggStep, hc]

theorem aggStep_highestPriority (s : AggState) (c : ClassificationResult) :
    (aggStep s c).highestPriority =
      (if colorVal s.highestPriority < colorVal c.color then c.color
       else s.highestPriority) := by
  simp [aggStep, indexOf_eq_colorVal]

theorem aggStep_referralUrgency (s : AggState) (c : ClassificationResult) :
    (aggStep s c).referralUrgency =
      (if c.urgency = some Urgency.emergency then "emergency"
       else if c.urgency = some Urgency.urgent ∧ s.referralUrgency ≠ "emergency" then
         "urgent"
       else if c.urgency = some Urgency.routine ∧ s.referralUrgency = "none" then
         "routine"
       else s.referralUrgency) := rfl

theorem colorVal_step (a b : ClassificationColor) :
    colorVal (if colorVal a < colorVal b then b else a) =
      Nat.max (colorVal a) (colorVal b) := by
  cases a <;> cases b <;> decide

theorem aggStep_referralUrgency_max (s : AggState) (c : ClassificationResult)
    (k : Nat) (hk : k ≤ 3) (hs : s.referralUrgency = urgStr k) :
    (aggStep s c).referralUrgency = urgStr (Nat.max k (urgVal c.urgency)) := by
  rw [aggStep_referralUrgency, hs]
  rcases hu : c.urgency with _ | u
  · interval_cases k <;> simp [urgStr, urgVal]
  · cases u <;> interval_cases k <;> simp [urgStr, urgVal]

/-! ### Lemmas about the aggregation fold -/

theorem foldl_aggStep_requiresReferral (l : List ClassificationResult) (s : AggState) :
    (l.foldl aggStep s).requiresReferral =
      (s.requiresReferral || l.any fun c => c.requiresReferral) := by
  induction l generalizing s with
  | nil => simp
  | cons c t ih =>
      simp [List.foldl_cons, ih, aggStep_requiresReferral, Bool.or_assoc]

theorem foldl_aggStep_criticalFindings (l : List ClassificationResult) (s : AggState) :
    (l.foldl aggStep s).criticalFindings =
      s.criticalFindings ++
        ((l.filter fun c => c.requiresReferral).map fun c => c.classification) := by
  induction l generalizing s with
  | nil => simp
  | cons c t ih =>
      rw [List.foldl_cons, ih, aggStep_criticalFindings]
      cases hc : c.requiresReferral <;> simp [hc, List.filter_cons]

theorem foldl_aggStep_highestPriority_val (l : List ClassificationResult) (s : AggState) :
    colorVal (l.foldl aggStep s).highestPriority =
      (l.map fun c => colorVal c.color).foldl Nat.max (colorVal s.highestPriority) := by
  induction l generalizing s with
  | nil => simp
  | cons c t ih =>
      rw [List.foldl_cons, ih, aggStep_highestPriority, List.map_cons, List.foldl_cons,
        colorVal_step]

theorem foldl_aggStep_highestPriority_mem (l : List ClassificationResult) (s : AggState) :
    (l.foldl aggStep s).highestPriority = s.highestPriority ∨
      ∃ c ∈ l, c.color = (l.foldl aggStep s).highestPriority := by
  induction l generalizing s with
  | nil => exact Or.inl rfl
  | cons c t ih =>
      rw [List.foldl_cons]
      rcases ih (aggStep s c) with h | ⟨c', hc', hcol⟩
      · rw [h, aggStep_highestPriority]
        split_ifs with hlt
        · exact Or.inr ⟨c, List.mem_cons_self c t, rfl⟩
        · exact Or.inl rfl
      · exact Or.inr ⟨c', List.mem_cons_of_mem c hc', hcol⟩

theorem foldl_aggStep_referralUrgency (l : List ClassificationResult) (s : AggState)
    (k : Nat) (hk : k ≤ 3) (hs : s.referralUrgency = urgStr k) :
    (l.foldl aggStep s).referralUrgency =
      urgStr ((l.map fun c => urgVal c.urgency).foldl Nat.max k) := by
  induction l generalizing s k with
  | nil => simpa using hs
  | cons c t ih =>
      rw [List.foldl_cons, List.map_cons, List.foldl_cons]
      exact ih (aggStep s c) (Nat.max k (urgVal c.urgency))
        ((natMax_le_iff k (urgVal c.urgency) 3).mpr ⟨hk, urgVal_le_three c.urgency⟩)
        (aggStep_referralUrgency_max s c k hk hs)

/-! ### Lemmas about the maximum of a list of naturals -/

theorem foldl_max_comm (l : List Nat) (a : Nat) :
    l.foldl Nat.max a = Nat.max a (listMax l) := by
  induction l generalizing a with
  | nil => simp [listMax, natMax_zero_left]
  | cons x t ih =>
      rw [listMax, List.foldl_cons, List.foldl_cons, ih, ih (Nat.max 0 x),
        natMax_zero_left x, natMax_assoc]

theorem listMax_cons (x : Nat) (t : List Nat) :
    listMax (x :: t) = Nat.max x (listMax t) := by
  rw [listMax, List.foldl_cons, foldl_max_comm, natMax_zero_left x]

theorem le_listMax (l : List Nat) (x : Nat) (hx : x ∈ l) : x ≤ listMax l := by
  induction l with
  | nil => cases hx
  | cons y t ih =>
      rw [listMax_cons]
      rcases List.mem_cons.mp hx with h | h
      · exact h ▸ left_le_natMax y (listMax t)
      · exact Nat.le_trans (ih h) (right_le_natMax y (listMax t))

theorem listMax_le (l : List Nat) (m : Nat) (h : ∀ x ∈ l, x ≤ m) : listMax l ≤ m := by
  induction l with
  | nil => simp [listMax]
  | cons y t ih =>
      rw [listMax_cons]
      exact (natMax_le_iff y (listMax t) m).mpr
        ⟨h y (List.mem_cons_self y t), ih fun x hx => h x (List.mem_cons_of_mem y hx)⟩

/-! ### Claims about the domain classifiers -/

/-- C1, counterexample: with the cough presence flag true but no further
findings the cough classifier still returns color green with no referral,
so green with no referral does not imply that the presence flag is false. -/
theorem green_no_referral_with_flag_true :
    (assessCoughBreathing coughOnly).color = ClassificationColor.green ∧
    (assessCoughBreathing coughOnly).requiresReferral = false ∧
    coughOnly.hasCoughDifficultyBreathing = true := by
  decide

/-- C1 (amended): for the four presence-flagged classifiers (cough, diarrhea,
fever, ear; the nutrition classifier has no presence flag), a false presence
flag forces color green and no referral.  The converse direction fails. -/
theorem presence_flag_false_gives_green (dc : CoughBreathingData) (dd : DiarrheaData)
    (df : FeverData) (de : EarProblemData)
    (hc : dc.hasCoughDifficultyBreathing = false) (hd : dd.hasDiarrhea = false)
    (hf : df.hasFever = false) (he : de.hasEarProblem = false) :
    ((assessCoughBreathing dc).color = ClassificationColor.green ∧
      (assessCoughBreathing dc).requiresReferral = false) ∧
    ((assessDiarrhea dd).color = ClassificationColor.green ∧
      (assessDiarrhea dd).requiresReferral = false) ∧
    ((assessFever df).color = ClassificationColor.green ∧
      (assessFever df).requiresReferral = false) ∧
    ((assessEarProblem de).color = ClassificationColor.green ∧
      (assessEarProblem de).requiresReferral = false) := by
  simp [assessCoughBreathing, assessDiarrhea, assessFever, assessEarProblem,
    hc, hd, hf, he]

/-- Witness for C1 at concrete all-clear observation records. -/
theorem presence_flag_false_gives_green_witness :
    ((assessCoughBreathing coughAbsent).color = ClassificationColor.green ∧
      (assessCoughBreathing coughAbsent).requiresReferral = false) ∧
    ((assessDiarrhea diarrheaAbsent).color = ClassificationColor.green ∧
      (assessDiarrhea diarrheaAbsent).requiresReferral = false) ∧
    ((assessFever feverAbsent).color = ClassificationColor.green ∧
      (assessFever feverAbsent).requiresReferral = false) ∧
    ((assessEarProblem earAbsent).color = ClassificationColor.green ∧
      (assessEarProblem earAbsent).requiresReferral = false) :=
  presence_flag_false_gives_green coughAbsent diarrheaAbsent feverAbsent earAbsent
    rfl rfl rfl rfl

/-- C4, counterexample: a supplied MUAC of exactly 0 is below 11.5 but is
falsy in JavaScript, so the severe branch is skipped and the classifier
returns the green no-malnutrition result instead. -/
theorem muac_zero_not_severe :
    nutritionMuacZero.muacMeasurement = some 0 ∧ ((0 : ℚ) < 11.5) ∧
    (assessNutrition nutritionMuacZero).classification = "No Malnutrition or Anemia" ∧
    (assessNutrition nutritionMuacZero).color = ClassificationColor.green ∧
    (assessNutrition nutritionMuacZero).requiresReferral = false := by
  refine ⟨rfl, by norm_num, ?_, ?_, ?_⟩ <;> rfl

/-- C4 (amended): visible severe wasting, bilateral edema, a present nonzero
MUAC below 11.5, or a present weight-for-age z-score below minus three gives
Severe Acute Malnutrition, red, referral required, urgent; a MUAC of exactly
0 is treated as absent by the JavaScript truthiness guard. -/
theorem severe_acute_malnutrition_rule (d : NutritionData)
    (h : d.visibleSevereWasting = true ∨ d.edemaBothFeet = true ∨
      (∃ m, d.muacMeasurement = some m ∧ m ≠ 0 ∧ m < 11.5) ∨
      (∃ w, d.weightForAge = some w ∧ w < -3)) :
    (assessNutrition d).classification = "Severe Acute Malnutrition" ∧
    (assessNutrition d).color = ClassificationColor.red ∧
    (assessNutrition d).requiresReferral = true ∧
    (assessNutrition d).urgency = some Urgency.urgent := by
  have hcond : (d.visibleSevereWasting || d.edemaBothFeet ||
      truthyAnd d.muacMeasurement (fun m => decide (m < 11.5)) ||
      truthyAnd d.weightForAge (fun w => decide (w < -3))) = true := by
    rcases h with h | h | ⟨m, hm, hm0, hmlt⟩ | ⟨w, hw, hwlt⟩
    · simp [h]
    · simp [h]
    · simp [truthyAnd, hm, hm0, hmlt]
    · have hw0 : w ≠ 0 := by
        intro h0
        rw [h0] at hwlt
        norm_num at hwlt
      simp [truthyAnd, hw, hw0, hwlt]
  unfold assessNutrition
  rw [if_pos hcond]
  exact ⟨rfl, rfl, rfl, rfl⟩

/-- Witness for C4 at the MUAC 11.0 example of the specification. -/
theorem severe_acute_malnutrition_rule_witness :
    (assessNutrition nutritionMuacEleven).classification = "Severe Acute Malnutrition" ∧
    (assessNutrition nutritionMuacEleven).color = ClassificationColor.red ∧
    (assessNutrition nutritionMuacEleven).requiresReferral = true ∧
    (assessNutrition nutritionMuacEleven).urgency = some Urgency.urgent :=
  severe_acute_malnutrition_rule nutritionMuacEleven
    (Or.inr (Or.inr (Or.inl ⟨11, rfl, by norm_num, by norm_num⟩)))

/-- C6: with diarrhea present, lethargy or inability to drink or the pair of
sunken eyes and very slow skin pinch classifies as Severe Dehydration, red,
emergency referral, regardless of every other flag. -/
theorem severe_dehydration_first (d : DiarrheaData)
    (hpres : d.hasDiarrhea = true)
    (hsev : d.lethargicUnconscious = true ∨ d.notAbleToDrink = true ∨
      (d.sunkenEyes = true ∧ d.skinPinchVerySlow = true)) :
    (assessDiarrhea d).classification = "Severe Dehydration" ∧
    (assessDiarrhea d).color = ClassificationColor.red ∧
    (assessDiarrhea d).requiresReferral = true ∧
    (assessDiarrhea d).urgency = some Urgency.emergency := by
  rcases hsev with h | h | ⟨h1, h2⟩ <;> simp [assessDiarrhea, hpres, *]

/-- Witness for C6 at a record that also satisfies the Dysentery predicate:
blood in stool together with lethargy still yields Severe Dehydration. -/
theorem severe_dehydration_first_witness :
    ((assessDiarrhea diarrheaLethargicBlood).classification = "Severe Dehydration" ∧
      (assessDiarrhea diarrheaLethargicBlood).color = ClassificationColor.red ∧
      (assessDiarrhea diarrheaLethargicBlood).requiresReferral = true ∧
      (assessDiarrhea diarrheaLethargicBlood).urgency = some Urgency.emergency) ∧
    diarrheaLethargicBlood.bloodInStool = true :=
  ⟨severe_dehydration_first diarrheaLethargicBlood rfl (Or.inl rfl), rfl⟩

/-- C8: no classifier ever produces the pink color tier: every output of the
six domain classifiers is green, yellow or red. -/
theorem classifier_never_pink (d1 : DangerSignsData) (d2 : CoughBreathingData)
    (d3 : DiarrheaData) (d4 : FeverData) (d5 : EarProblemData) (d6 : NutritionData) :
    colorGYR (assessDangerSigns d1) ∧ colorGYR (assessCoughBreathing d2) ∧
    colorGYR (assessDiarrhea d3) ∧ colorGYR (assessFever d4) ∧
    colorGYR (assessEarProblem d5) ∧ colorGYR (assessNutrition d6) := by
  refine ⟨?_, ?_, ?_, ?_, ?_, ?_⟩ <;>
    simp only [colorGYR, assessDangerSigns, assessCoughBreathing, assessDiarrhea,
      assessFever, assessEarProblem, assessNutrition] <;>
    split_ifs <;> simp

/-- C10: every classifier output that is red requires referral with urgent or
emergency urgency, and every referral-requiring output carries an urgency. -/
theorem red_requires_urgent_referral (d1 : DangerSignsData) (d2 : CoughBreathingData)
    (d3 : DiarrheaData) (d4 : FeverData) (d5 : EarProblemData) (d6 : NutritionData) :
    refUrgencyInvariant (assessDangerSigns d1) ∧
    refUrgencyInvariant (assessCoughBreathing d2) ∧
    refUrgencyInvariant (assessDiarrhea d3) ∧
    refUrgencyInvariant (assessFever d4) ∧
    refUrgencyInvariant (assessEarProblem d5) ∧
    refUrgencyInvariant (assessNutrition d6) := by
  refine ⟨?_, ?_, ?_, ?_, ?_, ?_⟩ <;>
    simp only [refUrgencyInvariant, assessDangerSigns, assessCoughBreathing,
      assessDiarrhea, assessFever, assessEarProblem, assessNutrition] <;>
    split_ifs <;> simp

/-- Witness for C10: the red danger-signs result requires referral with
emergency urgency. -/
theorem red_requires_urgent_referral_witness :
    (assessDangerSigns dangerLethargic).requiresReferral = true ∧
      ((assessDangerSigns dangerLethargic).urgency = some Urgency.urgent ∨
       (assessDangerSigns dangerLethargic).urgency = some Urgency.emergency) :=
  (red_requires_urgent_referral dangerLethargic coughAbsent diarrheaAbsent feverAbsent
    earAbsent nutritionClear).1.1 (by rfl)

theorem fastBreathingThresholdFor_pos (age : ℚ) : 0 < fastBreathingThresholdFor age := by
  unfold fastBreathingThresholdFor
  split_ifs <;> norm_num

/-- C7: with cough present and no danger signs, stridor or chest indrawing,
the classifier returns Pneumonia, yellow, no referral, exactly when a
respiratory rate is supplied and reaches the age-banded threshold of 60
below 2 months, 50 below 12 months and 40 otherwise; a missing rate never
counts as fast and the result is then No Pneumonia: Cough or Cold, green. -/
theorem pneumonia_iff_fast_breathing (d : CoughBreathingData)
    (hpres : d.hasCoughDifficultyBreathing = true)
    (hds : d.hasDangerSigns = false) (hstr : d.stridor = false)
    (hci : d.chestIndrawing = false) :
    ((∃ r, d.breathsPerMinute = some r ∧ fastBreathingThresholdFor d.ageInMonths ≤ r) →
      (assessCoughBreathing d).classification = "Pneumonia" ∧
      (assessCoughBreathing d).color = ClassificationColor.yellow ∧
      (assessCoughBreathing d).requiresReferral = false) ∧
    ((¬ ∃ r, d.breathsPerMinute = some r ∧ fastBreathingThresholdFor d.ageInMonths ≤ r) →
      (assessCoughBreathing d).classification = "No Pneumonia: Cough or Cold" ∧
      (assessCoughBreathing d).color = ClassificationColor.green ∧
      (assessCoughBreathing d).requiresReferral = false) := by
  have hiff : (d.breathsPerMinute.getD 0 ≥ fastBreathingThresholdFor d.ageInMonths) ↔
      (∃ r, d.breathsPerMinute = some r ∧ fastBreathingThresholdFor d.ageInMonths ≤ r) := by
    rcases hb : d.breathsPerMinute with _ | r
    · simp only [Option.getD_none, ge_iff_le]
      constructor
      · intro hh
        exact absurd (lt_of_lt_of_le (fastBreathingThresholdFor_pos d.ageInMonths) hh)
          (lt_irrefl 0)
      · rintro ⟨r, hr, _⟩
        exact Option.noConfusion hr
    · simp only [Option.getD_some, ge_iff_le, Option.some.injEq]
      constructor
      · intro hh
        exact ⟨r, rfl, hh⟩
      · rintro ⟨r', hr', hh⟩
        exact hr' ▸ hh
  unfold assessCoughBreathing
  simp only [hpres, hds, hstr, hci, Bool.not_true, Bool.false_eq_true, if_false,
    Bool.or_self, Bool.false_or]
  constructor <;> intro hx
  · have hfast : decide (d.breathsPerMinute.getD 0 ≥
        (if d.ageInMonths < 2 then (60 : ℚ) else if d.ageInMonths < 12 then 50 else 40)) = true := by
      rw [decide_eq_true_eq]
      exact hiff.mpr hx
    rw [if_pos hfast]
    exact ⟨rfl, rfl, rfl⟩
  · have hslow : ¬ (decide (d.breathsPerMinute.getD 0 ≥
        (if d.ageInMonths < 2 then (60 : ℚ) else if d.ageInMonths < 12 then 50 else 40)) = true) := by
      rw [decide_eq_true_eq]
      intro hh
      exact hx (hiff.mp hh)
    rw [if_neg hslow]
    exact ⟨rfl, rfl, rfl⟩

/-- Witness for C7 at age 10 months with rates 55 and 45: the threshold for
the 2 to 11 month band is 50, so 55 is Pneumonia and 45 is not. -/
theorem pneumonia_iff_fast_breathing_witness :
    ((assessCoughBreathing coughFast).classification = "Pneumonia" ∧
      (assessCoughBreathing coughFast).color = ClassificationColor.yellow ∧
      (assessCoughBreathing coughFast).requiresReferral = false) ∧
    ((assessCoughBreathing coughSlow).classification = "No Pneumonia: Cough or Cold" ∧
      (assessCoughBreathing coughSlow).color = ClassificationColor.green ∧
      (assessCoughBreathing coughSlow).requiresReferral = false) :=
  ⟨(pneumonia_iff_fast_breathing coughFast rfl rfl rfl rfl).1
      ⟨55, rfl, by decide⟩,
   (pneumonia_iff_fast_breathing coughSlow rfl rfl rfl rfl).2
      (by
        rintro ⟨r, hr, hge⟩
        have hr45 : r = 45 := by
          have : some (45 : ℚ) = some r := hr
          exact (Option.some.injEq _ _ ▸ this).symm
        rw [hr45] at hge
        revert hge
        decide)⟩

/-! ### Claims about the aggregator -/

theorem calcOverall_overallColor (l : List ClassificationResult) :
    (calculateOverallAssessment l).overallColor =
      (l.foldl aggStep aggInit).highestPriority := rfl

theorem calcOverall_requiresReferral (l : List ClassificationResult) :
    (calculateOverallAssessment l).requiresReferral =
      (l.foldl aggStep aggInit).requiresReferral := rfl

theorem calcOverall_criticalFindings (l : List ClassificationResult) :
    (calculateOverallAssessment l).criticalFindings =
      (l.foldl aggStep aggInit).criticalFindings := rfl

theorem calcOverall_referralUrgency (l : List ClassificationResult) :
    (calculateOverallAssessment l).referralUrgency =
      (if (l.foldl aggStep aggInit).requiresReferral = true then
        (l.foldl aggStep aggInit).referralUrgency
      else "none") := rfl

/-- C3: the aggregate overall color is the maximum color of the list under
green < yellow < pink < red (green for the empty list), the aggregate
referral flag holds exactly when some result in the list requires referral,
and the critical findings are the classification labels of the
referral-requiring results in input order. -/
theorem overall_assessment_aggregates (l : List ClassificationResult) :
    (∀ c ∈ l, colorVal c.color ≤ colorVal (calculateOverallAssessment l).overallColor) ∧
    ((calculateOverallAssessment l).overallColor = ClassificationColor.green ∨
      ∃ c ∈ l, c.color = (calculateOverallAssessment l).overallColor) ∧
    ((calculateOverallAssessment l).requiresReferral = true ↔
      ∃ c ∈ l, c.requiresReferral = true) ∧
    (calculateOverallAssessment l).criticalFindings =
      ((l.filter fun c => c.requiresReferral).map fun c => c.classification) := by
  refine ⟨?_, ?_, ?_, ?_⟩
  · intro c hc
    rw [calcOverall_overallColor, foldl_aggStep_highestPriority_val]
    exact le_listMax _ _ (List.mem_map_of_mem _ hc)
  · rw [calcOverall_overallColor]
    exact foldl_aggStep_highestPriority_mem l aggInit
  · rw [calcOverall_requiresReferral, foldl_aggStep_requiresReferral]
    simp [aggInit, List.any_eq_true]
  · rw [calcOverall_criticalFindings, foldl_aggStep_criticalFindings]
    simp [aggInit]

/-- Witness for C3 at a concrete red plus green result list. -/
theorem overall_assessment_aggregates_witness :
    colorVal ClassificationColor.red ≤
      colorVal (calculateOverallAssessment redGreenResults).overallColor ∧
    (calculateOverallAssessment redGreenResults).criticalFindings =
      ((redGreenResults.filter fun c => c.requiresReferral).map
        fun c => c.classification) :=
  ⟨(overall_assessment_aggregates redGreenResults).1
      ⟨"General Danger Signs Present", ClassificationColor.red, true,
        some Urgency.emergency, none⟩ (by decide),
   (overall_assessment_aggregates redGreenResults).2.2.2⟩

theorem calcOverall_overallClassification (l : List ClassificationResult) :
    (calculateOverallAssessment l).overallClassification =
      (if priorityOrder.indexOf (l.foldl aggStep aggInit).highestPriority ≥
          priorityOrder.indexOf ClassificationColor.red then
        "REFER URGENTLY - Severe Classification"
      else if priorityOrder.indexOf (l.foldl aggStep aggInit).highestPriority ≥
            priorityOrder.indexOf ClassificationColor.yellow ∧
          (l.foldl aggStep aggInit).requiresReferral = true then
        "REFER - Treatment Required at Higher Facility"
      else if priorityOrder.indexOf (l.foldl aggStep aggInit).highestPriority ≥
          priorityOrder.indexOf ClassificationColor.yellow then
        "Treatment at PHU - Follow up required"
      else "Child can be treated at home") := rfl

theorem label_cases (hp : ClassificationColor) (rr : Bool) :
    (if priorityOrder.indexOf hp ≥ priorityOrder.indexOf ClassificationColor.red then
      "REFER URGENTLY - Severe Classification"
    else if priorityOrder.indexOf hp ≥ priorityOrder.indexOf ClassificationColor.yellow ∧
        rr = true then
      "REFER - Treatment Required at Higher Facility"
    else if priorityOrder.indexOf hp ≥ priorityOrder.indexOf ClassificationColor.yellow then
      "Treatment at PHU - Follow up required"
    else "Child can be treated at home") =
    (if 3 ≤ colorVal hp then
      "REFER URGENTLY - Severe Classification"
    else if 1 ≤ colorVal hp ∧ rr = true then
      "REFER - Treatment Required at Higher Facility"
    else if 1 ≤ colorVal hp then
      "Treatment at PHU - Follow up required"
    else "Child can be treated at home") := by
  cases hp <;> cases rr <;> decide

/-- C5: the overall label is a function of the final color tier and referral
flag: red gives the urgent-referral label, yellow or above with referral the
referral label, yellow or above without referral the PHU label, and green
the home label. -/
theorem overall_label_from_color_and_referral (l : List ClassificationResult) :
    (calculateOverallAssessment l).overallClassification =
      (if 3 ≤ colorVal (calculateOverallAssessment l).overallColor then
        "REFER URGENTLY - Severe Classification"
      else if 1 ≤ colorVal (calculateOverallAssessment l).overallColor ∧
          (calculateOverallAssessment l).requiresReferral = true then
        "REFER - Treatment Required at Higher Facility"
      else if 1 ≤ colorVal (calculateOverallAssessment l).overallColor then
        "Treatment at PHU - Follow up required"
      else "Child can be treated at home") := by
  rw [calcOverall_overallClassification]
  simp only [calcOverall_overallColor, calcOverall_requiresReferral]
  exact label_cases _ _

theorem listMax_urg_filter (l : List ClassificationResult)
    (h : ∀ c ∈ l, resultWellFormed c)
    (hany : (l.any fun c => c.requiresReferral) = true) :
    listMax (l.map fun c => urgVal c.urgency) =
      listMax ((l.filter fun c => c.requiresReferral).map fun c => urgVal c.urgency) := by
  obtain ⟨c0, hc0l, hc0⟩ := List.any_eq_true.mp hany
  have h1 : 1 ≤ listMax ((l.filter fun c => c.requiresReferral).map
      fun c => urgVal c.urgency) := by
    have hmem : urgVal c0.urgency ∈
        ((l.filter fun c => c.requiresReferral).map fun c => urgVal c.urgency) :=
      List.mem_map_of_mem _ (List.mem_filter.mpr ⟨hc0l, hc0⟩)
    have h2 := le_listMax _ _ hmem
    have h3 := one_le_urgVal c0.urgency ((h c0 hc0l).2 hc0)
    omega
  apply Nat.le_antisymm
  · apply listMax_le
    intro x hx
    obtain ⟨c, hcl, rfl⟩ := List.mem_map.mp hx
    by_cases hc : c.requiresReferral = true
    · exact le_listMax _ _ (List.mem_map_of_mem _ (List.mem_filter.mpr ⟨hcl, hc⟩))
    · have h4 := (h c hcl).1 (by revert hc; cases c.requiresReferral <;> simp)
      omega
  · apply listMax_le
    intro x hx
    obtain ⟨c, hcl, rfl⟩ := List.mem_map.mp hx
    exact le_listMax _ _ (List.mem_map_of_mem _ (List.mem_filter.mp hcl).1)

/-- C2, counterexample: a result that does not require referral but carries
emergency urgency drives the aggregated referralUrgency to emergency even
though the only referral-requiring result has routine urgency, so the
aggregated urgency is not the maximum over referral-requiring results. -/
theorem referralUrgency_uses_nonreferral_urgency :
    (calculateOverallAssessment mixedUrgencyResults).referralUrgency = "emergency" ∧
    (∀ c ∈ mixedUrgencyResults, c.requiresReferral = true →
      c.urgency = some Urgency.routine) ∧
    (mixedUrgencyResults.any fun c => c.requiresReferral) = true := by
  decide

/-- C2 (amended): when every non-referral result carries at most routine
urgency and every referral-requiring result carries an urgency, as every
domain classifier output does, the aggregated referralUrgency is the highest
urgency among the referral-requiring results under routine < urgent <
emergency, and none when no result requires referral.  On arbitrary lists
the code instead takes the maximum urgency over all results, gated by the
referral flag. -/
theorem referralUrgency_max_over_referrals (l : List ClassificationResult)
    (h : ∀ c ∈ l, resultWellFormed c) :
    (calculateOverallAssessment l).referralUrgency =
      (if (l.any fun c => c.requiresReferral) = true then
        urgStr (listMax ((l.filter fun c => c.requiresReferral).map
          fun c => urgVal c.urgency))
      else "none") := by
  rw [calcOverall_referralUrgency, foldl_aggStep_requiresReferral,
    foldl_aggStep_referralUrgency l aggInit 0 (by omega) rfl]
  simp only [aggInit, Bool.false_or]
  by_cases hany : (l.any fun c => c.requiresReferral) = true
  · rw [if_pos hany, if_pos hany]
    have hb : (l.map fun c => urgVal c.urgency).foldl Nat.max 0 =
        listMax (l.map fun c => urgVal c.urgency) := rfl
    rw [hb, listMax_urg_filter l h hany]
  · rw [if_neg hany, if_neg hany]

/-- Witness for C2 at the six classifier outputs of the week-long fever
scenario, whose only referral-requiring result has routine urgency. -/
theorem referralUrgency_max_over_referrals_witness :
    (calculateOverallAssessment weekFeverResults).referralUrgency =
      (if (weekFeverResults.any fun c => c.requiresReferral) = true then
        urgStr (listMax ((weekFeverResults.filter fun c => c.requiresReferral).map
          fun c => urgVal c.urgency))
      else "none") :=
  referralUrgency_max_over_referrals weekFeverResults (by decide)

/-- C9: in the reachable scenario of a week-long fever of unknown cause with
every other domain clear, the fever result is green yet requires referral
with routine urgency, and the aggregate then requires referral with routine
urgency while the overall label is still the home-care label, because the
label tiers never inspect the referral flag below the yellow tier. -/
theorem routine_referral_still_home_label :
    feverWeekUnknown.feverDurationDays = some 7 ∧
    feverWeekUnknown.malariaRdtResult = none ∧
    feverWeekUnknown.hasDangerSigns = false ∧
    feverWeekUnknown.stiffNeck = false ∧
    (assessFever feverWeekUnknown).color = ClassificationColor.green ∧
    (assessFever feverWeekUnknown).requiresReferral = true ∧
    (assessFever feverWeekUnknown).urgency = some Urgency.routine ∧
    (assessDangerSigns dangerNone).color = ClassificationColor.green ∧
    (assessDangerSigns dangerNone).requiresReferral = false ∧
    (assessCoughBreathing coughAbsent).color = ClassificationColor.green ∧
    (assessCoughBreathing coughAbsent).requiresReferral = false ∧
    (assessDiarrhea diarrheaAbsent).color = ClassificationColor.green ∧
    (assessDiarrhea diarrheaAbsent).requiresReferral = false ∧
    (assessEarProblem earAbsent).color = ClassificationColor.green ∧
    (assessEarProblem earAbsent).requiresReferral = false ∧
    (assessNutrition nutritionClear).color = ClassificationColor.green ∧
    (assessNutrition nutritionClear).requiresReferral = false ∧
    (calculateOverallAssessment weekFeverResults).requiresReferral = true ∧
    (calculateOverallAssessment weekFeverResults).referralUrgency = "routine" ∧
    (calculateOverallAssessment weekFeverResults).overallColor =
      ClassificationColor.green ∧
    (calculateOverallAssessment weekFeverResults).overallClassification =
      "Child can be treated at home" := by
  decide
